import Mathlib

/-!
Verification development for the holochain-rust excerpted core:
the action/state engine (event taxonomy, envelope identity, dispatcher
contract), the validation-package response workflow, the container
configuration consistency check, and the guest-side (hdk) API surface.

Shallow embedding conventions:
* machine integers that cannot overflow in the modelled paths are `Nat`;
* Rust `Result<T, E>` is `Except E T`, `Option<T>` is `Option T`;
* the snowflake `ProcessUniqueId` generator is modelled as a
  monotonically increasing per-process counter threaded explicitly;
* stateful dispatch is modelled by returning the list of dispatched
  envelopes instead of sending them over a channel.
-/

namespace Holochain

/-- Content address (`holochain_core_types::cas::content::Address`),
a content-hash string. -/
abbrev Address := String

/-- Modelled from the spec: an Entry is a content-addressed unit of
application data; its payload is opaque to the excerpted core. -/
structure Entry where
  content : String
deriving DecidableEq, Repr

/-- Modelled from the spec: raw bytes held in content-addressable storage
either deserialize into an Entry or are malformed; the core only observes
this dichotomy through `Entry.try_from`. -/
inductive RawContent where
  | wellFormed : Entry → RawContent
  | malformed : String → RawContent
deriving DecidableEq, Repr

/-- `holochain_core_types::error::HolochainError` (variants used by the
excerpted core). -/
inductive HolochainError where
  | ErrorGeneric : String → HolochainError
  | IoError : String → HolochainError
deriving DecidableEq, Repr

/-- `Entry::try_from(raw)`: deserialization of raw storage content into an
Entry, which fails exactly on malformed content.  Modelled from the spec:
the core deserializes fetched bytes into an Entry and fails the workflow
step on deserialization error. -/
def Entry.try_from : RawContent → Except HolochainError Entry
  | RawContent.wellFormed e => Except.ok e
  | RawContent.malformed s => Except.error (HolochainError.ErrorGeneric s)

/-- Modelled from the spec: a ValidationPackage is a bundle of proof
material (chain headers / entries) peers need to validate an Entry. -/
structure ValidationPackage where
  sourceChain : List Entry
deriving DecidableEq, Repr

/-- `network::direct_message::DirectMessage` (variants used by the
excerpted core): a node-to-node payload; the validation-package response
carries an optional package. -/
inductive DirectMessage where
  | RequestValidationPackage : Address → DirectMessage
  | ValidationPackage : Option ValidationPackage → DirectMessage
deriving DecidableEq, Repr

/-- `holochain_core_types::link::Link` (modelled minimally: base, target
and tag of a link record). -/
structure Link where
  base : Address
  target : Address
  tag : String
deriving DecidableEq, Repr

/-- `holochain_core_types::chain_header::ChainHeader` (modelled minimally:
the address of the entry the header is for). -/
structure ChainHeader where
  entry_address : Address
deriving DecidableEq, Repr

/-- `holochain_core_types::dna::Dna` (modelled minimally: an application
descriptor identified by name). -/
structure Dna where
  name : String
deriving DecidableEq, Repr

/-- `holochain_core_types::entry::EntryWithMeta` (modelled minimally: an
entry together with its metadata). -/
structure EntryWithMeta where
  entry : Entry
  meta : String
deriving DecidableEq, Repr

/-- `holochain_core_types::json::JsonString`: opaque serialized JSON. -/
abbrev JsonString := String

/-- `nucleus::ZomeFnCall` (modelled minimally: a zome function call
request). -/
structure ZomeFnCall where
  zome_name : String
  fn_name : String
  parameters : JsonString
deriving DecidableEq, Repr

/-- `nucleus::ExecuteZomeFnResponse` (modelled minimally: the call it
answers and its result). -/
structure ExecuteZomeFnResponse where
  call : ZomeFnCall
  result : JsonString
deriving DecidableEq, Repr

/-- `nucleus::state::ValidationResult` (modelled minimally). -/
inductive ValidationResult where
  | Ok : ValidationResult
  | Fail : String → ValidationResult
deriving DecidableEq, Repr

/-- `holochain_net_connection::protocol_wrapper::DhtData` (modelled
minimally: a DHT result keyed by requester and address). -/
structure DhtData where
  msg_id : String
  address : Address
  content : JsonString
deriving DecidableEq, Repr

/-- `holochain_net_connection::protocol_wrapper::GetDhtData` (modelled
minimally: a peer's DHT get request). -/
structure GetDhtData where
  msg_id : String
  from_agent_id : String
  address : Address
deriving DecidableEq, Repr

/-- `snowflake::ProcessUniqueId`, modelled as a per-process counter value
(spec design note: a monotonically increasing per-process counter). -/
abbrev ProcessUniqueId := Nat

/-- `DirectMessageData`: everything the network module needs to send a
direct message (destination address, the message, the correlating message
id, and whether this message answers a previous one). -/
structure DirectMessageData where
  address : Address
  message : DirectMessage
  msg_id : String
  is_response : Bool
deriving DecidableEq, Repr

/-- `NetworkSettings`: everything the network needs to initialize. -/
structure NetworkSettings where
  config : JsonString
  dna_hash : String
  agent_id : String
deriving DecidableEq, Repr

instance exceptDecEq {ε α : Type} [DecidableEq ε] [DecidableEq α] :
    DecidableEq (Except ε α) := fun a b =>
  match a, b with
  | Except.error e1, Except.error e2 =>
    if h : e1 = e2 then isTrue (by rw [h])
    else isFalse (by intro hh; cases hh; exact h rfl)
  | Except.error _, Except.ok _ => isFalse (by intro hh; cases hh)
  | Except.ok _, Except.error _ => isFalse (by intro hh; cases hh)
  | Except.ok x, Except.ok y =>
    if h : x = y then isTrue (by rw [h])
    else isFalse (by intro hh; cases hh; exact h rfl)

/-- `Action`: the tagged union of every state transition of the instance
store, mirrored variant-for-variant from `core/src/action.rs`. -/
inductive Action where
  | Commit : Entry × Option Address → Action
  | Hold : Entry → Action
  | AddLink : Link → Action
  | InitNetwork : NetworkSettings → Action
  | Publish : Address → Action
  | GetEntry : Address → Action
  | UpdateEntry : Address × Address → Action
  | RemoveEntry : Address × Address → Action
  | GetEntryTimeout : Address → Action
  | RespondGet : GetDhtData × Option EntryWithMeta → Action
  | HandleGetResult : DhtData → Action
  | SendDirectMessage : DirectMessageData → Action
  | ResolveDirectConnection : String → Action
  | GetValidationPackage : ChainHeader → Action
  | HandleGetValidationPackage : Address × Option ValidationPackage → Action
  | InitApplication : Dna → Action
  | ReturnInitializationResult : Option String → Action
  | ExecuteZomeFunction : ZomeFnCall → Action
  | ReturnZomeFunctionResult : ExecuteZomeFnResponse → Action
  | Call : ZomeFnCall → Action
  | ReturnValidationResult : (ProcessUniqueId × Address) × ValidationResult → Action
  | ReturnValidationPackage :
      ProcessUniqueId × Except HolochainError ValidationPackage → Action
deriving DecidableEq, Repr

/-- `ActionWrapper`: wrapper for actions that provides a process-unique
id, used for state tracking so that two dispatches of the same value can
be told apart. -/
structure ActionWrapper where
  action : Action
  id : ProcessUniqueId
deriving Repr

/-- `ActionWrapper::new(a)`: constructor from an Action; the internal
snowflake id is drawn from the per-process generator, which is threaded
explicitly (the returned counter is the generator state after the call). -/
def ActionWrapper.new (a : Action) (gen : ProcessUniqueId) :
    ActionWrapper × ProcessUniqueId :=
  (⟨a, gen⟩, gen + 1)

/-- The `PartialEq` impl for `ActionWrapper`: equality compares only the
snowflake id, never the wrapped action. -/
def ActionWrapper.eq (w1 w2 : ActionWrapper) : Bool :=
  w1.id == w2.id

/-- The `Hash` impl for `ActionWrapper`: only the id is fed to the hasher,
so the digest is a function of the id alone.  The digest of the id is
modelled as the id itself (injective per process, matching the repo's own
`action_wrapper_hash` test which asserts distinct wrappers hash
distinctly). -/
def ActionWrapper.hash (w : ActionWrapper) : Nat :=
  w.id

/-- Sequential construction of wrappers for a list of actions within one
process: each call to `ActionWrapper.new` consumes the generator state the
previous call produced. -/
def ActionWrapper.newSeq : List Action → ProcessUniqueId →
    List ActionWrapper × ProcessUniqueId
  | [], g => ([], g)
  | a :: rest, g =>
    let p := ActionWrapper.new a g
    let q := ActionWrapper.newSeq rest p.2
    (p.1 :: q.1, q.2)

theorem newSeq_map_id (as : List Action) (g : ProcessUniqueId) :
    ((ActionWrapper.newSeq as g).1.map ActionWrapper.id) =
      List.range' g as.length := by
  induction as generalizing g with
  | nil => rfl
  | cons a rest ih =>
    simp [ActionWrapper.newSeq, ActionWrapper.new, List.range', ih]

/-- The shared runtime `Context`.  The excerpted core reaches two
collaborators through it along the accessor chain
`context.state().agent().chain().content_storage()`: the
content-addressable storage boundary and the validation-package builder.
`fetch` is modelled from the spec's boundary contract
`fetch(address) -> Option<raw bytes>`; `build_validation_package`
(`nucleus/actions/build_validation_package.rs`, outside the excerpt) is
modelled from the spec: building a package walks the chain and may fail. -/
structure Context where
  fetch : Address → Option RawContent
  build_validation_package : Entry → Except HolochainError ValidationPackage

/-- `get_entry(address, context)` from
`workflows/respond_validation_package_request.rs`: fetch the raw content
at the address from content-addressable storage, fail with the generic
"Entry not found" error when the storage has nothing there, and otherwise
deserialize it with `Entry::try_from`. -/
def get_entry (address : Address) (context : Context) :
    Except HolochainError Entry :=
  match context.fetch address with
  | none => Except.error (HolochainError.ErrorGeneric "Entry not found")
  | some raw => Entry.try_from raw

/-- The workflow-internal `maybe_validation_package` value: on a found
entry the package build's result demoted to an option (`.ok()`), on a
failed lookup `None`. -/
def maybe_validation_package (requested_entry_address : Address)
    (context : Context) : Option ValidationPackage :=
  match get_entry requested_entry_address context with
  | Except.ok entry => (context.build_validation_package entry).toOption
  | Except.error _ => none

/-- `respond_validation_package_request`: build (or fail to build) the
validation package for the requested entry, wrap the optional package in a
`DirectMessage::ValidationPackage`, and dispatch a single
`SendDirectMessage` action answering the original request (same message
id, response flag true).  `dispatch_action` onto the channel is modelled
by returning the list of dispatched wrappers; the id generator is
threaded explicitly.  The workflow returns no error and touches no state
besides the dispatch. -/
def respond_validation_package_request (to_agent_id : Address)
    (msg_id : String) (requested_entry_address : Address)
    (context : Context) (gen : ProcessUniqueId) :
    List ActionWrapper × ProcessUniqueId :=
  let direct_message :=
    DirectMessage.ValidationPackage
      (maybe_validation_package requested_entry_address context)
  let p := ActionWrapper.new
    (Action.SendDirectMessage ⟨to_agent_id, direct_message, msg_id, true⟩) gen
  ([p.1], p.2)

/-- Modelled from the spec: the agent sub-state owns the local source
chain. -/
structure AgentState where
  chain : List Entry
deriving DecidableEq, Repr

/-- Modelled from the spec: the network sub-state tracks pending
direct-message correlations by message id. -/
structure NetworkState where
  pending_messages : List String
deriving DecidableEq, Repr

/-- Modelled from the spec: the nucleus sub-state tracks pending
call/validation tables. -/
structure NucleusState where
  validation_results : List (ProcessUniqueId × Address)
deriving DecidableEq, Repr

/-- `ReduceFn<S>` from `core/src/action.rs`: the signature of an action
handler; `&mut S` becomes an explicit state-in/state-out function. -/
def ReduceFn (S : Type) : Type := Context → S → ActionWrapper → S

/-- `AgentReduceFn`. -/
def AgentReduceFn := ReduceFn AgentState

/-- `NetworkReduceFn`. -/
def NetworkReduceFn := ReduceFn NetworkState

/-- `NucleusReduceFn`. -/
def NucleusReduceFn := ReduceFn NucleusState

/-- The three independently reduced partitions of instance state. -/
structure SubStates where
  agent : AgentState
  network : NetworkState
  nucleus : NucleusState

/-- Modelled from the spec: applying one envelope hands it to every
sub-state reducer exactly once (the three reducers are composed by the
Dispatcher). -/
def applyEnvelope (ctx : Context) (ra : AgentReduceFn) (rn : NetworkReduceFn)
    (ru : NucleusReduceFn) (s : SubStates) (w : ActionWrapper) : SubStates :=
  { agent := ra ctx s.agent w
    network := rn ctx s.network w
    nucleus := ru ctx s.nucleus w }

/-- The Dispatcher's observable state: the queue of envelopes accepted but
not yet applied, the sub-states, and the log of envelopes in arrival
order. -/
structure DispatcherState where
  queue : List ActionWrapper
  store : SubStates
  arrivals : List ActionWrapper

/-- Modelled from the spec: the Dispatcher accepts envelopes from
arbitrary producers (`accept` appends to the queue and the arrival log)
and applies them strictly one at a time in arrival order (`process` takes
the head of the queue and hands it to all sub-state reducers exactly
once). -/
inductive DispatcherStep (ctx : Context) (ra : AgentReduceFn)
    (rn : NetworkReduceFn) (ru : NucleusReduceFn) :
    DispatcherState → DispatcherState → Prop where
  | accept (w : ActionWrapper) (q : List ActionWrapper) (s : SubStates)
      (log : List ActionWrapper) :
      DispatcherStep ctx ra rn ru ⟨q, s, log⟩ ⟨q ++ [w], s, log ++ [w]⟩
  | process (w : ActionWrapper) (q : List ActionWrapper) (s : SubStates)
      (log : List ActionWrapper) :
      DispatcherStep ctx ra rn ru ⟨w :: q, s, log⟩
        ⟨q, applyEnvelope ctx ra rn ru s w, log⟩

/-- The Dispatcher invariant: the store always equals the fold of the
composed reducers over the prefix of arrivals already processed, and the
queue is exactly the unprocessed suffix. -/
theorem dispatcher_invariant (ctx : Context) (ra : AgentReduceFn)
    (rn : NetworkReduceFn) (ru : NucleusReduceFn) (s0 : SubStates)
    (d : DispatcherState)
    (h : Relation.ReflTransGen (DispatcherStep ctx ra rn ru) ⟨[], s0, []⟩ d) :
    ∃ processed : List ActionWrapper,
      d.arrivals = processed ++ d.queue ∧
      d.store = processed.foldl (applyEnvelope ctx ra rn ru) s0 := by
  induction h with
  | refl => exact ⟨[], rfl, rfl⟩
  | tail _ hstep ih =>
    obtain ⟨p, harr, hstore⟩ := ih
    cases hstep with
    | accept w q s log =>
      refine ⟨p, ?_, hstore⟩
      simp only at harr ⊢
      rw [harr, List.append_assoc]
    | process w q s log =>
      refine ⟨p ++ [w], ?_, ?_⟩
      · simp only at harr ⊢
        rw [harr, List.append_assoc]
        rfl
      · simp only at hstore ⊢
        rw [List.foldl_append, ← hstore]
        rfl

/-- `AgentConfiguration`: an agent has an id and a key file. -/
structure AgentConfiguration where
  id : String
  key_file : String
deriving DecidableEq, Repr

/-- `DNAConfiguration`: a DNA is represented by a file plus a hash. -/
structure DNAConfiguration where
  id : String
  file : String
  hash : String
deriving DecidableEq, Repr

/-- `LoggerConfiguration`. -/
structure LoggerConfiguration where
  logger_type : String
  file : Option String
deriving DecidableEq, Repr

/-- `StorageConfiguration`: memory or file backed CAS. -/
inductive StorageConfiguration where
  | Memory : StorageConfiguration
  | File : String → StorageConfiguration
deriving DecidableEq, Repr

/-- `InstanceConfiguration`: an instance combines a DNA with an agent,
both referenced by string id. -/
structure InstanceConfiguration where
  id : String
  dna : String
  agent : String
  logger : LoggerConfiguration
  storage : StorageConfiguration
  network : Option String
deriving DecidableEq, Repr

/-- `InterfaceDriver` (the `Custom` variant's toml value is opaque). -/
inductive InterfaceDriver where
  | Websocket : Nat → InterfaceDriver
  | Http : Nat → InterfaceDriver
  | DomainSocket : String → InterfaceDriver
  | Custom : String → InterfaceDriver
deriving DecidableEq, Repr

/-- `InstanceReferenceConfiguration`: an interface lists instances by
id. -/
structure InstanceReferenceConfiguration where
  id : String
deriving DecidableEq, Repr

/-- `InterfaceConfiguration`. -/
structure InterfaceConfiguration where
  id : String
  driver : InterfaceDriver
  admin : Bool
  instances : List InstanceReferenceConfiguration
deriving DecidableEq, Repr

/-- `Bridge`: enables an instance to call zome functions of another
instance; both ends are referenced by string id. -/
structure Bridge where
  caller_id : String
  callee_id : String
deriving DecidableEq, Repr

/-- `Configuration`: the root of the container configuration tree. -/
structure Configuration where
  agents : List AgentConfiguration
  dnas : List DNAConfiguration
  instances : List InstanceConfiguration
  interfaces : List InterfaceConfiguration
  bridges : List Bridge
deriving DecidableEq, Repr

/-- `Configuration::agent_by_id`: the agent configuration with the given
id, if present. -/
def Configuration.agent_by_id (c : Configuration) (id : String) :
    Option AgentConfiguration :=
  c.agents.find? (fun ac => ac.id == id)

/-- `Configuration::dna_by_id`: the DNA configuration with the given id,
if present. -/
def Configuration.dna_by_id (c : Configuration) (id : String) :
    Option DNAConfiguration :=
  c.dnas.find? (fun dc => dc.id == id)

/-- `Configuration::instance_by_id`: the instance configuration with the
given id, if present. -/
def Configuration.instance_by_id (c : Configuration) (id : String) :
    Option InstanceConfiguration :=
  c.instances.find? (fun ic => ic.id == id)

/-- `Configuration::interface_by_id`. -/
def Configuration.interface_by_id (c : Configuration) (id : String) :
    Option InterfaceConfiguration :=
  c.interfaces.find? (fun ic => ic.id == id)

/-- `Configuration::instance_ids`. -/
def Configuration.instance_ids (c : Configuration) : List String :=
  c.instances.map (fun inst => inst.id)

/-- The first loop of `check_consistency`: every instance must reference a
configured agent and a configured DNA; the `?` operator returns the first
failure's message. -/
def Configuration.check_instances_refs (c : Configuration) :
    List InstanceConfiguration → Except String Unit
  | [] => Except.ok ()
  | inst :: rest =>
    if (c.agent_by_id inst.agent).isSome then
      if (c.dna_by_id inst.dna).isSome then
        Configuration.check_instances_refs c rest
      else
        Except.error ("DNA configuration \"" ++ inst.dna ++
          "\" not found, mentioned in instance \"" ++ inst.id ++ "\"")
    else
      Except.error ("Agent configuration " ++ inst.agent ++
        " not found, mentioned in instance " ++ inst.id)

/-- The inner loop of `check_consistency`'s second loop: every instance id
listed by an interface must reference a configured instance. -/
def Configuration.check_interface_refs (c : Configuration) :
    List InstanceReferenceConfiguration → Except String Unit
  | [] => Except.ok ()
  | ref :: rest =>
    if (c.instance_by_id ref.id).isSome then
      Configuration.check_interface_refs c rest
    else
      Except.error ("Instance configuration \"" ++ ref.id ++
        "\" not found, mentioned in interface")

/-- The second loop of `check_consistency`, over all interfaces. -/
def Configuration.check_interfaces_refs (c : Configuration) :
    List InterfaceConfiguration → Except String Unit
  | [] => Except.ok ()
  | iface :: rest =>
    match Configuration.check_interface_refs c iface.instances with
    | Except.error e => Except.error e
    | Except.ok _ => Configuration.check_interfaces_refs c rest

/-- `Configuration::check_consistency`: semantic validity of the
configuration — every reference between config structs resolves.  Returns
`Ok(())` or the first failure's message. -/
def Configuration.check_consistency (c : Configuration) :
    Except String Unit :=
  match Configuration.check_instances_refs c c.instances with
  | Except.error e => Except.error e
  | Except.ok _ => Configuration.check_interfaces_refs c c.interfaces

/-- The reference-resolution property `check_consistency` decides: each
instance's agent and DNA resolve, and each instance id listed by an
interface resolves. -/
@[reducible] def Configuration.consistent (c : Configuration) : Prop :=
  (∀ inst ∈ c.instances,
    (c.agent_by_id inst.agent).isSome = true ∧
    (c.dna_by_id inst.dna).isSome = true) ∧
  ∀ iface ∈ c.interfaces, ∀ ref ∈ iface.instances,
    (c.instance_by_id ref.id).isSome = true

theorem check_instances_refs_ok_iff (c : Configuration)
    (l : List InstanceConfiguration) :
    Configuration.check_instances_refs c l = Except.ok () ↔
      ∀ inst ∈ l, (c.agent_by_id inst.agent).isSome = true ∧
        (c.dna_by_id inst.dna).isSome = true := by
  induction l with
  | nil => simp [Configuration.check_instances_refs]
  | cons inst rest ih =>
    by_cases ha : (c.agent_by_id inst.agent).isSome = true
    · by_cases hd : (c.dna_by_id inst.dna).isSome = true
      · simp [Configuration.check_instances_refs, ha, hd, ih]
      · simp [Configuration.check_instances_refs, ha, hd]
    · simp [Configuration.check_instances_refs, ha]

theorem check_interface_refs_ok_iff (c : Configuration)
    (l : List InstanceReferenceConfiguration) :
    Configuration.check_interface_refs c l = Except.ok () ↔
      ∀ ref ∈ l, (c.instance_by_id ref.id).isSome = true := by
  induction l with
  | nil => simp [Configuration.check_interface_refs]
  | cons ref rest ih =>
    by_cases hi : (c.instance_by_id ref.id).isSome = true
    · simp [Configuration.check_interface_refs, hi, ih]
    · simp [Configuration.check_interface_refs, hi]

theorem check_interfaces_refs_ok_iff (c : Configuration)
    (l : List InterfaceConfiguration) :
    Configuration.check_interfaces_refs c l = Except.ok () ↔
      ∀ iface ∈ l, ∀ ref ∈ iface.instances,
        (c.instance_by_id ref.id).isSome = true := by
  induction l with
  | nil => simp [Configuration.check_interfaces_refs]
  | cons iface rest ih =>
    rcases h : Configuration.check_interface_refs c iface.instances with e | u
    · constructor
      · intro hok
        simp [Configuration.check_interfaces_refs, h] at hok
      · intro hall
        have : Configuration.check_interface_refs c iface.instances =
            Except.ok () := by
          exact (check_interface_refs_ok_iff c iface.instances).mpr
            (hall iface (List.mem_cons_self _ _))
        rw [this] at h
        cases h
    · have hif : ∀ ref ∈ iface.instances,
          (c.instance_by_id ref.id).isSome = true :=
        (check_interface_refs_ok_iff c iface.instances).mp (by rw [h])
      simp only [Configuration.check_interfaces_refs, h, ih]
      constructor
      · intro hrest iface2 hmem
        rcases List.mem_cons.mp hmem with rfl | hmem2
        · exact hif
        · exact hrest iface2 hmem2
      · intro hall iface2 hmem
        exact hall iface2 (List.mem_cons_of_mem _ hmem)

/-- Shared helper: `check_consistency` succeeds exactly on consistent
configurations. -/
theorem check_consistency_ok_iff (c : Configuration) :
    Configuration.check_consistency c = Except.ok () ↔ c.consistent := by
  unfold Configuration.check_consistency Configuration.consistent
  rcases h : Configuration.check_instances_refs c c.instances with e | u
  · constructor
    · intro hok
      cases hok
    · intro hcons
      have : Configuration.check_instances_refs c c.instances =
          Except.ok () :=
        (check_instances_refs_ok_iff c c.instances).mpr hcons.1
      rw [this] at h
      cases h
  · have h1 : ∀ inst ∈ c.instances,
        (c.agent_by_id inst.agent).isSome = true ∧
        (c.dna_by_id inst.dna).isSome = true :=
      (check_instances_refs_ok_iff c c.instances).mp (by rw [h])
    simp only [check_interfaces_refs_ok_iff]
    exact ⟨fun h2 => ⟨h1, h2⟩, fun h2 => h2.2⟩

/-- Shared helper: an `Except String Unit` is `Ok(())` or carries an error
message. -/
theorem except_unit_ok_or_error (r : Except String Unit) :
    r = Except.ok () ∨ ∃ m, r = Except.error m := by
  cases r with
  | error m => exact Or.inr ⟨m, rfl⟩
  | ok u => cases u; exact Or.inl rfl

theorem agent_by_id_set_bridges (c : Configuration) (b : List Bridge)
    (x : String) : Configuration.agent_by_id { c with bridges := b } x =
      Configuration.agent_by_id c x := rfl

theorem dna_by_id_set_bridges (c : Configuration) (b : List Bridge)
    (x : String) : Configuration.dna_by_id { c with bridges := b } x =
      Configuration.dna_by_id c x := rfl

theorem instance_by_id_set_bridges (c : Configuration) (b : List Bridge)
    (x : String) : Configuration.instance_by_id { c with bridges := b } x =
      Configuration.instance_by_id c x := rfl

theorem check_instances_refs_set_bridges (c : Configuration)
    (b : List Bridge) (l : List InstanceConfiguration) :
    Configuration.check_instances_refs { c with bridges := b } l =
      Configuration.check_instances_refs c l := by
  induction l with
  | nil => rfl
  | cons inst rest ih =>
    simp only [Configuration.check_instances_refs,
      agent_by_id_set_bridges, dna_by_id_set_bridges, ih]

theorem check_interface_refs_set_bridges (c : Configuration)
    (b : List Bridge) (l : List InstanceReferenceConfiguration) :
    Configuration.check_interface_refs { c with bridges := b } l =
      Configuration.check_interface_refs c l := by
  induction l with
  | nil => rfl
  | cons ref rest ih =>
    simp only [Configuration.check_interface_refs,
      instance_by_id_set_bridges, ih]

theorem check_interfaces_refs_set_bridges (c : Configuration)
    (b : List Bridge) (l : List InterfaceConfiguration) :
    Configuration.check_interfaces_refs { c with bridges := b } l =
      Configuration.check_interfaces_refs c l := by
  induction l with
  | nil => rfl
  | cons iface rest ih =>
    simp only [Configuration.check_interfaces_refs,
      check_interface_refs_set_bridges, ih]

namespace Hdk

/-- `hdk::RibosomeError`: the error type of the guest-side API surface. -/
inductive RibosomeError where
  | RibosomeFailed : String → RibosomeError
  | FunctionNotImplemented : RibosomeError
  | HashNotFound : RibosomeError
  | ValidationFailed : String → RibosomeError
deriving DecidableEq, Repr

/-- `holochain_core_types::hash::HashString`. -/
abbrev HashString := String

/-- `serde_json::Value`, modelled as an opaque serialized JSON value. -/
abbrev JsonValue := String

/-- `hdk::property`. -/
def property (_name : String) : Except RibosomeError String :=
  Except.error RibosomeError.FunctionNotImplemented

/-- `hdk::make_hash`. -/
def make_hash (_entry_type : String) (_entry_data : JsonValue) :
    Except RibosomeError HashString :=
  Except.error RibosomeError.FunctionNotImplemented

/-- `hdk::call`. -/
def call (_zome_name : String) (_function_name : String)
    (_arguments : JsonValue) : Except RibosomeError JsonValue :=
  Except.error RibosomeError.FunctionNotImplemented

/-- `hdk::sign`. -/
def sign (_doc : String) : Except RibosomeError String :=
  Except.error RibosomeError.FunctionNotImplemented

/-- `hdk::verify_signature`. -/
def verify_signature (_signature : String) (_data : String)
    (_pub_key : String) : Except RibosomeError Bool :=
  Except.error RibosomeError.FunctionNotImplemented

/-- `hdk::update_entry`. -/
def update_entry (_entry_type : String) (_entry : JsonValue)
    (_replaces : HashString) : Except RibosomeError HashString :=
  Except.error RibosomeError.FunctionNotImplemented

/-- `hdk::update_agent`. -/
def update_agent : Except RibosomeError HashString :=
  Except.error RibosomeError.FunctionNotImplemented

/-- `hdk::remove_entry`. -/
def remove_entry (_entry : HashString) (_message : String) :
    Except RibosomeError HashString :=
  Except.error RibosomeError.FunctionNotImplemented

/-- `hdk::link_entries`. -/
def link_entries (_base : HashString) (_target : HashString)
    (_tag : String) : Except RibosomeError Unit :=
  Except.error RibosomeError.FunctionNotImplemented

/-- `hdk::get_links`. -/
def get_links (_base : HashString) (_tag : String) :
    Except RibosomeError (List HashString) :=
  Except.error RibosomeError.FunctionNotImplemented

/-- `hdk::query`. -/
def query : Except RibosomeError (List String) :=
  Except.error RibosomeError.FunctionNotImplemented

/-- `hdk::send`. -/
def send (_to : HashString) (_message : JsonValue) :
    Except RibosomeError JsonValue :=
  Except.error RibosomeError.FunctionNotImplemented

end Hdk

/-! Concrete fixtures used by witnesses and counterexamples. -/

/-- A context whose storage misses on every address (entry not found). -/
def ctxEntryAbsent : Context :=
  ⟨fun _ => none,
   fun _ => Except.error (HolochainError.ErrorGeneric "build failed")⟩

/-- A context that holds a well-formed entry at every address but whose
validation-package builder fails. -/
def ctxBuildFails : Context :=
  ⟨fun _ => some (RawContent.wellFormed ⟨"entry"⟩),
   fun _ => Except.error (HolochainError.ErrorGeneric "build failed")⟩

/-- A context that holds a well-formed entry at every address and whose
builder succeeds with an empty package. -/
def ctxBuildSucceeds : Context :=
  ⟨fun _ => some (RawContent.wellFormed ⟨"entry"⟩),
   fun _ => Except.ok ⟨[]⟩⟩

/-- Example agent reducer for dispatcher runs: a `Commit` appends the
entry to the chain. -/
def testAgentReduce : AgentReduceFn := fun _ s w =>
  match w.action with
  | Action.Commit (e, _) => ⟨e :: s.chain⟩
  | _ => s

/-- Example network reducer for dispatcher runs: track and resolve
direct-message correlations. -/
def testNetworkReduce : NetworkReduceFn := fun _ s w =>
  match w.action with
  | Action.SendDirectMessage d => ⟨d.msg_id :: s.pending_messages⟩
  | Action.ResolveDirectConnection m => ⟨s.pending_messages.erase m⟩
  | _ => s

/-- Example nucleus reducer for dispatcher runs. -/
def testNucleusReduce : NucleusReduceFn := fun _ s _ => s

/-- Empty sub-states. -/
def emptySubStates : SubStates := ⟨⟨[]⟩, ⟨[]⟩, ⟨[]⟩⟩

/-- A concrete envelope for dispatcher runs. -/
def testWrapper : ActionWrapper := ⟨Action.Commit (⟨"hello"⟩, none), 0⟩

/-- Shared helper: the envelope list the workflow dispatches, computed. -/
theorem respond_validation_package_request_eq (to_agent_id : Address)
    (msg_id : String) (addr : Address) (context : Context)
    (gen : ProcessUniqueId) :
    (respond_validation_package_request to_agent_id msg_id addr context
        gen).1 =
      [⟨Action.SendDirectMessage
          ⟨to_agent_id,
           DirectMessage.ValidationPackage
             (maybe_validation_package addr context),
           msg_id, true⟩, gen⟩] := rfl

/-- Shared helper: on a failed lookup or a failed build the
workflow-internal package value is `none`. -/
theorem maybe_validation_package_eq_none (addr : Address)
    (context : Context)
    (h : (∃ err, get_entry addr context = Except.error err) ∨
         (∃ e err, get_entry addr context = Except.ok e ∧
            context.build_validation_package e = Except.error err)) :
    maybe_validation_package addr context = none := by
  unfold maybe_validation_package
  rcases h with ⟨err, he⟩ | ⟨e, err, hok, hb⟩
  · rw [he]
  · rw [hok]
    show (context.build_validation_package e).toOption = none
    rw [hb]
    rfl

/-- C1: when the requested entry cannot be fetched from storage, or the
validation-package build fails, the workflow propagates no error: it still
dispatches a well-formed response whose package payload is `None`, with
the response flag true and the original message id. -/
theorem respond_validation_package_absent_on_failure
    (to_agent_id : Address) (msg_id : String) (addr : Address)
    (context : Context) (gen : ProcessUniqueId)
    (h : (∃ err, get_entry addr context = Except.error err) ∨
         (∃ e err, get_entry addr context = Except.ok e ∧
            context.build_validation_package e = Except.error err)) :
    (respond_validation_package_request to_agent_id msg_id addr context
        gen).1 =
      [⟨Action.SendDirectMessage
          ⟨to_agent_id, DirectMessage.ValidationPackage none, msg_id, true⟩,
        gen⟩] := by
  rw [respond_validation_package_request_eq,
    maybe_validation_package_eq_none addr context h]

/-- C1 witness: on a storage with no entry at `addr-x` the workflow
answers with the absent package. -/
theorem respond_validation_package_absent_on_failure_witness :
    (respond_validation_package_request "peer" "msg-1" "addr-x"
        ctxEntryAbsent 0).1 =
      [⟨Action.SendDirectMessage
          ⟨"peer", DirectMessage.ValidationPackage none, "msg-1", true⟩,
        0⟩] :=
  respond_validation_package_absent_on_failure "peer" "msg-1" "addr-x"
    ctxEntryAbsent 0
    (Or.inl ⟨HolochainError.ErrorGeneric "Entry not found", rfl⟩)

/-- C2: every invocation of the workflow dispatches exactly one event, a
`SendDirectMessage` carrying the destination peer address it was invoked
with, the (possibly absent) package as payload, the request's message id
unchanged, and the response flag true; the workflow returns nothing else
and mutates no state (its only output is this dispatch list). -/
theorem respond_validation_package_single_send (to_agent_id : Address)
    (msg_id : String) (addr : Address) (context : Context)
    (gen : ProcessUniqueId) :
    (respond_validation_package_request to_agent_id msg_id addr context
        gen).1 =
      [⟨Action.SendDirectMessage
          ⟨to_agent_id,
           DirectMessage.ValidationPackage
             (maybe_validation_package addr context),
           msg_id, true⟩, gen⟩] :=
  respond_validation_package_request_eq to_agent_id msg_id addr context gen

/-- C3: two `ActionWrapper`s are equal exactly when their ids are equal,
whatever the wrapped payloads; the hash is a function of the id alone, so
equal wrappers hash equally and wrappers with distinct ids hash
distinctly. -/
theorem action_wrapper_eq_hash_by_id (w1 w2 : ActionWrapper) :
    (ActionWrapper.eq w1 w2 = true ↔ w1.id = w2.id) ∧
    (w1.id = w2.id → ActionWrapper.hash w1 = ActionWrapper.hash w2) ∧
    (ActionWrapper.eq w1 w2 = true →
      ActionWrapper.hash w1 = ActionWrapper.hash w2) ∧
    (w1.id ≠ w2.id → ActionWrapper.hash w1 ≠ ActionWrapper.hash w2) := by
  refine ⟨?_, ?_, ?_, ?_⟩
  · simp [ActionWrapper.eq]
  · intro h
    simp [ActionWrapper.hash, h]
  · intro h
    simp [ActionWrapper.eq] at h
    simp [ActionWrapper.hash, h]
  · intro h
    simp [ActionWrapper.hash]
    exact h

/-- C4: two constructions performed in sequence within one process yield
wrappers with distinct ids that compare unequal even when the wrapped
actions are equal, and across any sequence of constructions no id is ever
reused. -/
theorem action_wrapper_new_unique_ids (a1 a2 : Action)
    (g : ProcessUniqueId) :
    (ActionWrapper.new a1 g).1.id ≠
        (ActionWrapper.new a2 (ActionWrapper.new a1 g).2).1.id ∧
    ActionWrapper.eq (ActionWrapper.new a1 g).1
        (ActionWrapper.new a2 (ActionWrapper.new a1 g).2).1 = false ∧
    ∀ as : List Action,
      ((ActionWrapper.newSeq as g).1.map ActionWrapper.id).Nodup := by
  refine ⟨?_, ?_, ?_⟩
  · simp [ActionWrapper.new]
  · simp [ActionWrapper.new, ActionWrapper.eq]
  · intro as
    rw [newSeq_map_id]
    exact List.nodup_range' _ _ _ Nat.one_pos

/-- C5: after the Dispatcher has processed every envelope it accepted
(empty queue), the sub-states equal the sequential fold of the composed
sub-state reducers over the envelopes in exactly the arrival order,
starting from the initial sub-states; each envelope reaches every
sub-state reducer exactly once. -/
theorem dispatcher_store_eq_fold (ctx : Context) (ra : AgentReduceFn)
    (rn : NetworkReduceFn) (ru : NucleusReduceFn) (s0 : SubStates)
    (d : DispatcherState)
    (h : Relation.ReflTransGen (DispatcherStep ctx ra rn ru)
      ⟨[], s0, []⟩ d)
    (hq : d.queue = []) :
    d.store = d.arrivals.foldl (applyEnvelope ctx ra rn ru) s0 := by
  obtain ⟨p, harr, hstore⟩ := dispatcher_invariant ctx ra rn ru s0 d h
  rw [hq, List.append_nil] at harr
  rw [harr]
  exact hstore

/-- C5 witness: a concrete run accepting and processing one envelope ends
with the store equal to the fold over the arrival log. -/
theorem dispatcher_store_eq_fold_witness :
    (DispatcherState.mk []
        (applyEnvelope ctxEntryAbsent testAgentReduce testNetworkReduce
          testNucleusReduce emptySubStates testWrapper)
        [testWrapper]).store =
      [testWrapper].foldl
        (applyEnvelope ctxEntryAbsent testAgentReduce testNetworkReduce
          testNucleusReduce) emptySubStates :=
  dispatcher_store_eq_fold ctxEntryAbsent testAgentReduce testNetworkReduce
    testNucleusReduce emptySubStates _
    (Relation.ReflTransGen.tail
      (Relation.ReflTransGen.single
        (DispatcherStep.accept testWrapper [] emptySubStates []))
      (DispatcherStep.process testWrapper [] emptySubStates [testWrapper]))
    rfl

/-- C6 counterexample: the workflow does not keep two distinct internal
result variants for the two failure causes.  Concretely, a run whose
lookup fails (entry not found) and a run whose package build fails have
the very same workflow-internal `maybe_validation_package` value `none`,
so the distinction claimed to exist at the workflow-internal level is
already absent there. -/
theorem workflow_internal_collapse_counterexample :
    get_entry "addr-x" ctxEntryAbsent =
      Except.error (HolochainError.ErrorGeneric "Entry not found") ∧
    get_entry "addr-x" ctxBuildFails = Except.ok ⟨"entry"⟩ ∧
    ctxBuildFails.build_validation_package ⟨"entry"⟩ =
      Except.error (HolochainError.ErrorGeneric "build failed") ∧
    maybe_validation_package "addr-x" ctxEntryAbsent =
      maybe_validation_package "addr-x" ctxBuildFails ∧
    maybe_validation_package "addr-x" ctxEntryAbsent = none :=
  ⟨rfl, rfl, rfl, rfl, rfl⟩

/-- C6 (amended): the workflow collapses both failure causes — entry not
found and package-build failure — to the same absent value already at the
workflow-internal level, and the dispatched DirectMessage payloads of the
two runs are identical (`ValidationPackage(None)`), so the receiver
cannot distinguish the causes. -/
theorem workflow_failure_causes_indistinguishable (to_agent_id : Address)
    (msg_id : String) (addr1 addr2 : Address) (ctx1 ctx2 : Context)
    (g1 g2 : ProcessUniqueId)
    (h1 : ∃ err, get_entry addr1 ctx1 = Except.error err)
    (h2 : ∃ e err, get_entry addr2 ctx2 = Except.ok e ∧
        ctx2.build_validation_package e = Except.error err) :
    maybe_validation_package addr1 ctx1 = none ∧
    maybe_validation_package addr2 ctx2 = none ∧
    ((respond_validation_package_request to_agent_id msg_id addr1 ctx1
        g1).1.map (fun w => w.action)) =
      ((respond_validation_package_request to_agent_id msg_id addr2 ctx2
        g2).1.map (fun w => w.action)) := by
  have hn1 : maybe_validation_package addr1 ctx1 = none :=
    maybe_validation_package_eq_none addr1 ctx1 (Or.inl h1)
  have hn2 : maybe_validation_package addr2 ctx2 = none :=
    maybe_validation_package_eq_none addr2 ctx2 (Or.inr h2)
  refine ⟨hn1, hn2, ?_⟩
  rw [respond_validation_package_request_eq,
    respond_validation_package_request_eq, hn1, hn2]
  rfl

/-- C6 witness: the amended statement at the two concrete contexts (empty
storage vs. failing builder). -/
theorem workflow_failure_causes_indistinguishable_witness :
    maybe_validation_package "addr-x" ctxEntryAbsent = none ∧
    maybe_validation_package "addr-x" ctxBuildFails = none ∧
    ((respond_validation_package_request "peer" "msg-1" "addr-x"
        ctxEntryAbsent 0).1.map (fun w => w.action)) =
      ((respond_validation_package_request "peer" "msg-1" "addr-x"
        ctxBuildFails 7).1.map (fun w => w.action)) :=
  workflow_failure_causes_indistinguishable "peer" "msg-1" "addr-x"
    "addr-x" ctxEntryAbsent ctxBuildFails 0 7
    ⟨HolochainError.ErrorGeneric "Entry not found", rfl⟩
    ⟨⟨"entry"⟩, HolochainError.ErrorGeneric "build failed", ⟨rfl, rfl⟩⟩

/-- C7: the workflow-side `get_entry` fails exactly when the storage fetch
yields nothing at the address or the raw content fails to deserialize; in
every other case it returns the deserialized stored Entry; and such an
error is consumed by the workflow into a `None` package (the workflow
still answers), never propagated further. -/
theorem get_entry_error_characterization (addr : Address)
    (context : Context) (to_agent_id : Address) (msg_id : String)
    (gen : ProcessUniqueId) :
    ((∃ err, get_entry addr context = Except.error err) ↔
      (context.fetch addr = none ∨
        ∃ raw, context.fetch addr = some raw ∧
          ∃ err, Entry.try_from raw = Except.error err)) ∧
    (∀ e, get_entry addr context = Except.ok e ↔
      ∃ raw, context.fetch addr = some raw ∧
        Entry.try_from raw = Except.ok e) ∧
    ((∃ err, get_entry addr context = Except.error err) →
      (respond_validation_package_request to_agent_id msg_id addr context
          gen).1 =
        [⟨Action.SendDirectMessage
            ⟨to_agent_id, DirectMessage.ValidationPackage none, msg_id,
             true⟩, gen⟩]) := by
  refine ⟨?_, ?_, ?_⟩
  · unfold get_entry
    rcases hf : context.fetch addr with _ | raw
    · simp
    · simp only [hf, Option.some.injEq]
      constructor
      · intro he
        exact Or.inr ⟨raw, rfl, he⟩
      · rintro (hc | ⟨raw2, hr2, err, he2⟩)
        · cases hc
        · cases hr2
          exact ⟨err, he2⟩
  · intro e
    unfold get_entry
    rcases hf : context.fetch addr with _ | raw
    · simp
    · simp only [hf, Option.some.injEq]
      constructor
      · intro he
        exact ⟨raw, rfl, he⟩
      · rintro ⟨raw2, hr2, he2⟩
        cases hr2
        exact he2
  · intro herr
    rw [respond_validation_package_request_eq,
      maybe_validation_package_eq_none addr context (Or.inl herr)]

theorem check_instances_refs_error_names (c : Configuration)
    (l : List InstanceConfiguration) (m : String)
    (h : Configuration.check_instances_refs c l = Except.error m) :
    ∃ inst ∈ l,
      (c.agent_by_id inst.agent = none ∧
        m = "Agent configuration " ++ inst.agent ++
          " not found, mentioned in instance " ++ inst.id) ∨
      (c.dna_by_id inst.dna = none ∧
        m = "DNA configuration \"" ++ inst.dna ++
          "\" not found, mentioned in instance \"" ++ inst.id ++ "\"") := by
  induction l with
  | nil => simp [Configuration.check_instances_refs] at h
  | cons inst rest ih =>
    by_cases ha : (c.agent_by_id inst.agent).isSome = true
    · by_cases hd : (c.dna_by_id inst.dna).isSome = true
      · rw [Configuration.check_instances_refs, if_pos ha, if_pos hd] at h
        obtain ⟨inst2, hmem, hcase⟩ := ih h
        exact ⟨inst2, List.mem_cons_of_mem _ hmem, hcase⟩
      · rw [Configuration.check_instances_refs, if_pos ha, if_neg hd] at h
        refine ⟨inst, List.mem_cons_self _ _, Or.inr ⟨?_, ?_⟩⟩
        · exact Option.not_isSome_iff_eq_none.mp hd
        · cases h
          rfl
    · rw [Configuration.check_instances_refs, if_neg ha] at h
      refine ⟨inst, List.mem_cons_self _ _, Or.inl ⟨?_, ?_⟩⟩
      · exact Option.not_isSome_iff_eq_none.mp ha
      · cases h
        rfl

theorem check_interface_refs_error_names (c : Configuration)
    (l : List InstanceReferenceConfiguration) (m : String)
    (h : Configuration.check_interface_refs c l = Except.error m) :
    ∃ ref ∈ l, c.instance_by_id ref.id = none ∧
      m = "Instance configuration \"" ++ ref.id ++
        "\" not found, mentioned in interface" := by
  induction l with
  | nil => simp [Configuration.check_interface_refs] at h
  | cons ref rest ih =>
    by_cases hi : (c.instance_by_id ref.id).isSome = true
    · rw [Configuration.check_interface_refs, if_pos hi] at h
      obtain ⟨ref2, hmem, hcase⟩ := ih h
      exact ⟨ref2, List.mem_cons_of_mem _ hmem, hcase⟩
    · rw [Configuration.check_interface_refs, if_neg hi] at h
      refine ⟨ref, List.mem_cons_self _ _, ?_, ?_⟩
      · exact Option.not_isSome_iff_eq_none.mp hi
      · cases h
        rfl

theorem check_interfaces_refs_error_names (c : Configuration)
    (l : List InterfaceConfiguration) (m : String)
    (h : Configuration.check_interfaces_refs c l = Except.error m) :
    ∃ iface ∈ l, ∃ ref ∈ iface.instances,
      c.instance_by_id ref.id = none ∧
      m = "Instance configuration \"" ++ ref.id ++
        "\" not found, mentioned in interface" := by
  induction l with
  | nil => simp [Configuration.check_interfaces_refs] at h
  | cons iface rest ih =>
    rcases hc : Configuration.check_interface_refs c iface.instances
      with e | u
    · rw [Configuration.check_interfaces_refs, hc] at h
      rw [show e = m by cases h; rfl] at hc
      obtain ⟨ref, hmem, hcase⟩ := check_interface_refs_error_names c
        iface.instances m hc
      exact ⟨iface, List.mem_cons_self _ _, ref, hmem, hcase⟩
    · rw [Configuration.check_interfaces_refs, hc] at h
      obtain ⟨iface2, hmem, hrest⟩ := ih h
      exact ⟨iface2, List.mem_cons_of_mem _ hmem, hrest⟩

/-- C8: `check_consistency` returns `Ok(())` exactly when every
instance's agent id and DNA id resolve and every instance id listed by an
interface resolves; otherwise it returns an `Err` whose message names a
missing reference (the first one in scan order, by the sequential scan
the checker performs). -/
theorem check_consistency_ok_iff_refs_resolve (c : Configuration) :
    (Configuration.check_consistency c = Except.ok () ↔ c.consistent) ∧
    (¬ c.consistent →
      ∃ m, Configuration.check_consistency c = Except.error m) ∧
    (∀ m, Configuration.check_consistency c = Except.error m →
      (∃ inst ∈ c.instances,
        (c.agent_by_id inst.agent = none ∧
          m = "Agent configuration " ++ inst.agent ++
            " not found, mentioned in instance " ++ inst.id) ∨
        (c.dna_by_id inst.dna = none ∧
          m = "DNA configuration \"" ++ inst.dna ++
            "\" not found, mentioned in instance \"" ++ inst.id ++
            "\"")) ∨
      (∃ iface ∈ c.interfaces, ∃ ref ∈ iface.instances,
        c.instance_by_id ref.id = none ∧
        m = "Instance configuration \"" ++ ref.id ++
          "\" not found, mentioned in interface")) := by
  refine ⟨check_consistency_ok_iff c, ?_, ?_⟩
  · intro hn
    rcases except_unit_ok_or_error (Configuration.check_consistency c)
      with hok | herr
    · exact absurd ((check_consistency_ok_iff c).mp hok) hn
    · exact herr
  · intro m hm
    unfold Configuration.check_consistency at hm
    rcases hc : Configuration.check_instances_refs c c.instances
      with e | u
    · rw [hc] at hm
      rw [show e = m by cases hm; rfl] at hc
      exact Or.inl (check_instances_refs_error_names c c.instances m hc)
    · rw [hc] at hm
      exact Or.inr (check_interfaces_refs_error_names c c.interfaces m hm)

/-- C9: `check_consistency` never inspects the bridges list — replacing
it by any other list leaves the result unchanged; in particular a
configuration whose instances and interfaces check out passes with any
dangling bridge. -/
theorem check_consistency_ignores_bridges (c : Configuration)
    (b : List Bridge) :
    Configuration.check_consistency { c with bridges := b } =
      Configuration.check_consistency c ∧
    (Configuration.check_consistency c = Except.ok () →
      Configuration.check_consistency { c with bridges := b } =
        Except.ok ()) := by
  have hmain : Configuration.check_consistency { c with bridges := b } =
      Configuration.check_consistency c := by
    unfold Configuration.check_consistency
    have hi : ({ c with bridges := b } : Configuration).instances =
        c.instances := rfl
    have hf : ({ c with bridges := b } : Configuration).interfaces =
        c.interfaces := rfl
    rw [hi, hf, check_instances_refs_set_bridges,
      check_interfaces_refs_set_bridges]
  exact ⟨hmain, fun hok => hmain.trans hok⟩

/-- C10: every listed guest-API function — `property`, `make_hash`,
`call`, `sign`, `verify_signature`, `update_entry`, `update_agent`,
`remove_entry`, `link_entries`, `get_links`, `query` and `send` — returns
`Err(FunctionNotImplemented)` on every input, unconditionally. -/
theorem hdk_functions_not_implemented :
    (∀ n, Hdk.property n =
      Except.error Hdk.RibosomeError.FunctionNotImplemented) ∧
    (∀ t d, Hdk.make_hash t d =
      Except.error Hdk.RibosomeError.FunctionNotImplemented) ∧
    (∀ z f a, Hdk.call z f a =
      Except.error Hdk.RibosomeError.FunctionNotImplemented) ∧
    (∀ d, Hdk.sign d =
      Except.error Hdk.RibosomeError.FunctionNotImplemented) ∧
    (∀ s d p, Hdk.verify_signature s d p =
      Except.error Hdk.RibosomeError.FunctionNotImplemented) ∧
    (∀ t e r, Hdk.update_entry t e r =
      Except.error Hdk.RibosomeError.FunctionNotImplemented) ∧
    (Hdk.update_agent =
      Except.error Hdk.RibosomeError.FunctionNotImplemented) ∧
    (∀ e m, Hdk.remove_entry e m =
      Except.error Hdk.RibosomeError.FunctionNotImplemented) ∧
    (∀ b t g, Hdk.link_entries b t g =
      Except.error Hdk.RibosomeError.FunctionNotImplemented) ∧
    (∀ b t, Hdk.get_links b t =
      Except.error Hdk.RibosomeError.FunctionNotImplemented) ∧
    (Hdk.query =
      Except.error Hdk.RibosomeError.FunctionNotImplemented) ∧
    (∀ t m, Hdk.send t m =
      Except.error Hdk.RibosomeError.FunctionNotImplemented) :=
  ⟨fun _ => rfl, fun _ _ => rfl, fun _ _ _ => rfl, fun _ => rfl,
   fun _ _ _ => rfl, fun _ _ _ => rfl, rfl, fun _ _ => rfl,
   fun _ _ _ => rfl, fun _ _ => rfl, rfl, fun _ _ => rfl⟩

end Holochain
